import Mathlib

/-!
Verification development for the gift-intelligence embedding service
(`src/app_embedding_service.py`, `src/install_model_on_server.py`).

The service wraps an opaque embedding capability (`SentenceTransformer.encode`)
behind four HTTP endpoints.  We shallow-embed the request/response data model
and the endpoint handlers as pure Lean functions.  Python floats are modelled
as rationals; the capability is an explicit function parameter; the
process-wide `model` global is an `Option Capability` passed to each handler.
-/

namespace EmbeddingService

/-- The opaque embedding capability (`model.encode`): a batch of texts and a
normalization flag, producing either one vector per text or an error message
(the stringified exception).  Vectors are lists of rationals (Python floats
modelled as exact rationals). -/
def Capability : Type := List String → Bool → Except String (List (List ℚ))

/-- `text[:100] + "..." if len(text) > 100 else text`
(source lines 189 and 267–268): Python string slicing counts characters, so a
String is truncated to its first 100 characters and an ellipsis marker is
appended, while a string of at most 100 characters is left unchanged. -/
def truncateLabel (s : String) : String :=
  if s.length > 100 then (s.toList.take 100).asString ++ "..." else s

/-- Python's `round` (round-half-to-even, used at source lines 199 and 269)
restricted to rational inputs: nearest integer, ties to the even one. -/
def pyRoundInt (q : ℚ) : ℤ :=
  let f : ℤ := ⌊q⌋
  let frac : ℚ := q - f
  if frac < 1/2 then f
  else if 1/2 < frac then f + 1
  else if f % 2 = 0 then f else f + 1

/-- Python's `round(q, n)`: round to `n` decimal places, ties to even. -/
def pyRound (q : ℚ) (n : ℕ) : ℚ :=
  (pyRoundInt (q * 10 ^ n) : ℚ) / 10 ^ n

/-- `embeddings[0] @ embeddings[1]` (source line 264): dot product of two
vectors, pairing componentwise. -/
def dotProduct (u v : List ℚ) : ℚ :=
  (u.zip v).foldl (fun acc p => acc + p.1 * p.2) 0

/-- Pydantic model `EmbedRequest` (source lines 76–87): the payload reaching
the handler after framework validation. -/
structure EmbedRequest where
  texts : List String
  normalize : Bool := true

/-- Pydantic model `EmbeddingResult` (source lines 90–94).  The `tokens`
field defaults to `None` and the handler never sets it. -/
structure EmbeddingResult where
  text : String
  embedding : List ℚ
  tokens : Option ℕ := none

/-- Pydantic model `EmbedResponse` (source lines 97–103). -/
structure EmbedResponse where
  embeddings : List EmbeddingResult
  count : ℕ
  dimension : ℕ
  model : String := "sentence-transformers/all-MiniLM-L6-v2"
  processing_time_ms : ℚ

/-- Pydantic model `HealthResponse` (source lines 106–112). -/
structure HealthResponse where
  status : String
  model_loaded : Bool
  model_name : String
  embedding_dimension : ℕ
  max_sequence_length : ℕ

/-- Outcome of a POST `/api/v1/embed` call: a success payload, or an
`HTTPException` with a status code and detail string. -/
inductive EmbedOutcome
  | success (resp : EmbedResponse)
  | error (status : ℕ) (detail : String)

/-- The HTTP status of an embed outcome (200 on success). -/
def EmbedOutcome.status : EmbedOutcome → ℕ
  | .success _ => 200
  | .error s _ => s

/-- `GET /health` handler `health_check` (source lines 135–144). -/
def health_check (model : Option Capability) : HealthResponse :=
  { status := if model.isSome then "healthy" else "unhealthy"
    model_loaded := model.isSome
    model_name := "sentence-transformers/all-MiniLM-L6-v2"
    embedding_dimension := 384
    max_sequence_length := 256 }

/-- `POST /api/v1/embed` handler `generate_embeddings` (source lines
147–206).  `elapsed` is the wall-clock seconds between the two `time.time()`
samples (lines 174 and 193); determinism aside, the handler is a pure
function of the model state, the validated request and that duration. -/
def generate_embeddings (model : Option Capability) (req : EmbedRequest)
    (elapsed : ℚ) : EmbedOutcome :=
  match model with
  | none => .error 503 "Model not loaded"
  | some encode =>
    if req.texts.length = 0 then .error 400 "No texts provided"
    else if req.texts.length > 100 then
      .error 400 "Maximum 100 texts per request. Use batch processing for larger sets."
    else
      match encode req.texts req.normalize with
      | .error e => .error 500 ("Embedding generation failed: " ++ e)
      | .ok embeddings =>
        let results : List EmbeddingResult :=
          (req.texts.zip embeddings).map fun p =>
            { text := truncateLabel p.1, embedding := p.2 }
        .success
          { embeddings := results
            count := results.length
            dimension := 384
            processing_time_ms := pyRound (elapsed * 1000) 2 }

/-- Whether a raw request body satisfies the pydantic constraints
`min_items=1, max_items=100` declared on `EmbedRequest.texts`
(source lines 78–83). -/
def validTextsLength (texts : List String) : Bool :=
  1 ≤ texts.length && texts.length ≤ 100

/-- The full FastAPI request pipeline for `POST /api/v1/embed`: a body whose
`texts` list violates the pydantic constraints `min_items=1, max_items=100`
(source lines 78–83) is rejected by the framework with a 422 validation
error before the handler runs; otherwise the handler `generate_embeddings`
is invoked on the validated request. -/
def embedEndpoint (model : Option Capability) (texts : List String)
    (normalize : Bool) (elapsed : ℚ) : EmbedOutcome :=
  if validTextsLength texts then
    generate_embeddings model { texts := texts, normalize := normalize } elapsed
  else
    .error 422 "value_error: request body failed EmbedRequest validation"

/-- `"Very similar" if similarity > 0.8 else "Similar" if similarity > 0.6
else "Somewhat similar" if similarity > 0.4 else "Not very similar"`
(source lines 270–275). -/
def interpretScore (similarity : ℚ) : String :=
  if similarity > 8/10 then "Very similar"
  else if similarity > 6/10 then "Similar"
  else if similarity > 4/10 then "Somewhat similar"
  else "Not very similar"

/-- Success payload of `POST /api/v1/similarity` (source lines 266–276). -/
structure SimilarityPayload where
  text1 : String
  text2 : String
  similarity : ℚ
  interpretation : String

/-- Outcome of a `POST /api/v1/similarity` call. -/
inductive SimilarityOutcome
  | success (p : SimilarityPayload)
  | error (status : ℕ) (detail : String)

/-- `POST /api/v1/similarity` handler `compute_similarity` (source lines
251–278).  `encode([text1, text2], normalize_embeddings=True)` is a single
capability call; a result with fewer than two rows would raise on the
indexing `embeddings[1]` and be caught by the generic handler. -/
def compute_similarity (model : Option Capability) (text1 text2 : String) :
    SimilarityOutcome :=
  match model with
  | none => .error 503 "Model not loaded"
  | some encode =>
    match encode [text1, text2] true with
    | .error e => .error 500 ("Similarity computation failed: " ++ e)
    | .ok embeddings =>
      match embeddings with
      | v0 :: v1 :: _ =>
        let similarity := dotProduct v0 v1
        .success
          { text1 := truncateLabel text1
            text2 := truncateLabel text2
            similarity := pyRound similarity 4
            interpretation := interpretScore similarity }
      | _ => .error 500 ("Similarity computation failed: " ++ "index out of bounds")

/-- The static document returned by `GET /api/v1/model-info`
(source lines 215–248), with nested dictionaries flattened into fields. -/
structure ModelInfoDoc where
  model_name : String
  model_type : String
  base_model : String
  embedding_dimension : ℕ
  max_sequence_length : ℕ
  max_input_length : String
  normalization : String
  training_total_pairs : String
  training_datasets : List String
  use_cases : List String
  performance_speed : String
  performance_quality : String
  performance_domain : String
  deriving DecidableEq

/-- The constant payload literal of `get_model_info` (source lines 215–248). -/
def modelInfoDoc : ModelInfoDoc :=
  { model_name := "sentence-transformers/all-MiniLM-L6-v2"
    model_type := "Sentence Transformer"
    base_model := "nreimers/MiniLM-L6-H384-uncased"
    embedding_dimension := 384
    max_sequence_length := 256
    max_input_length := "~512 words"
    normalization := "L2 normalization recommended"
    training_total_pairs := "1.17 billion sentence pairs"
    training_datasets :=
      ["Reddit comments (726M)", "S2ORC citations (116M)", "WikiAnswers (77M)",
       "PAQ Q&A (64M)", "StackExchange (68M)", "MS MARCO (9M)",
       "and 24 more datasets"]
    use_cases :=
      ["Semantic search", "Text similarity", "Clustering",
       "Information retrieval", "Duplicate detection", "Feature extraction"]
    performance_speed := "~1000 sentences/sec on CPU"
    performance_quality := "High semantic understanding"
    performance_domain := "General purpose (not domain-specific)" }

/-- Outcome of a `GET /api/v1/model-info` call. -/
inductive ModelInfoOutcome
  | payload (doc : ModelInfoDoc)
  | error (status : ℕ) (detail : String)
  deriving DecidableEq

/-- `GET /api/v1/model-info` handler `get_model_info` (source lines
209–248): raises a 503 `HTTPException` when the model reference is unset,
otherwise returns the constant document. -/
def get_model_info (model : Option Capability) : ModelInfoOutcome :=
  match model with
  | none => .error 503 "Model not loaded"
  | some _ => .payload modelInfoDoc

/-- The operations of `generate_embeddings` in source order (lines 161–200):
the model check (line 161), the length validation (165–172), the first
`time.time()` sample (174), the capability `encode` call (178–183), the
result-list construction with label truncation and vector conversion
(186–191), the second `time.time()` sample (193), and the `EmbedResponse`
construction (195–200). -/
inductive EmbedStep
  | checkModel
  | validateCount
  | readClock
  | encodeCall
  | buildResults
  | buildResponse
  deriving DecidableEq

/-- The handler's operations in source order; `readClock` occurs twice, at
lines 174 and 193. -/
def embedHandlerSteps : List EmbedStep :=
  [.checkModel, .validateCount, .readClock, .encodeCall, .buildResults,
   .readClock, .buildResponse]

/-- The operations that fall strictly between the two clock samples: what
the reported processing time actually measures. -/
def timedSteps : List EmbedStep :=
  ((embedHandlerSteps.dropWhile (· ≠ .readClock)).drop 1).takeWhile
    (· ≠ .readClock)

end EmbeddingService

namespace EmbeddingService

/-- A trivial concrete capability for witnesses and counterexamples: every
text maps to the 384-dimensional zero vector. -/
def zeroCap : Capability :=
  fun texts _ => .ok (texts.map fun _ => List.replicate 384 0)

/-- A concrete capability that always fails, for exercising the exception
path. -/
def failCap : Capability :=
  fun _ _ => .error "boom"

end EmbeddingService

open EmbeddingService

/-- When the capability call succeeds on a length-valid request, the endpoint
returns the fully determined success payload: labels truncated, vectors from
the capability, count the length of the zipped list, dimension 384, and the
rounded elapsed milliseconds. -/
theorem embedEndpoint_success_eq (cap : Capability) (texts : List String)
    (nrm : Bool) (e : ℚ) (embs : List (List ℚ))
    (h1 : 1 ≤ texts.length) (h2 : texts.length ≤ 100)
    (hcap : cap texts nrm = Except.ok embs) :
    embedEndpoint (some cap) texts nrm e = .success
      { embeddings := (texts.zip embs).map fun p =>
          { text := truncateLabel p.1, embedding := p.2 }
        count := ((texts.zip embs).map fun p =>
          ({ text := truncateLabel p.1, embedding := p.2 } : EmbeddingResult)).length
        dimension := 384
        processing_time_ms := pyRound (e * 1000) 2 } := by
  have hv : validTextsLength texts = true := by
    unfold validTextsLength
    simp only [Bool.and_eq_true, decide_eq_true_eq]
    omega
  unfold embedEndpoint generate_embeddings
  rw [if_pos hv]
  simp only [hcap]
  rw [if_neg (by omega), if_neg (by omega)]

/-- Mapping the label projection over the result list recovers the truncated
input texts, position by position. -/
theorem map_text_zip (texts : List String) (embs : List (List ℚ))
    (h : embs.length = texts.length) :
    ((texts.zip embs).map fun p =>
      ({ text := truncateLabel p.1, embedding := p.2 } : EmbeddingResult)).map
        EmbeddingResult.text = texts.map truncateLabel := by
  induction texts generalizing embs with
  | nil => simp
  | cons t ts ih =>
    cases embs with
    | nil => simp at h
    | cons v vs =>
      simp only [List.zip_cons_cons, List.map_cons]
      rw [ih vs (by simpa using h)]

/-- Mapping the vector projection over the result list recovers exactly the
capability's output vectors, position by position. -/
theorem map_embedding_zip (texts : List String) (embs : List (List ℚ))
    (h : embs.length = texts.length) :
    ((texts.zip embs).map fun p =>
      ({ text := truncateLabel p.1, embedding := p.2 } : EmbeddingResult)).map
        EmbeddingResult.embedding = embs := by
  induction texts generalizing embs with
  | nil =>
    cases embs with
    | nil => simp
    | cons v vs => simp at h
  | cons t ts ih =>
    cases embs with
    | nil => simp at h
    | cons v vs =>
      simp only [List.zip_cons_cons, List.map_cons]
      rw [ih vs (by simpa using h)]

/-- C1: for every valid embed request of N texts (1 ≤ N ≤ 100) for which the
capability succeeds and returns one vector per text, the response is a
success whose `embeddings` list has exactly N entries, whose `count` equals
N, and whose entries are paired with the inputs positionally: the k-th label
is the (truncated) k-th input text and the k-th vector is the k-th vector
returned by the capability. -/
theorem C1_batch_count_and_order (cap : Capability) (texts : List String)
    (nrm : Bool) (e : ℚ) (embs : List (List ℚ))
    (h1 : 1 ≤ texts.length) (h2 : texts.length ≤ 100)
    (hlen : embs.length = texts.length)
    (hcap : cap texts nrm = Except.ok embs) :
    ∃ resp, embedEndpoint (some cap) texts nrm e = .success resp ∧
      resp.embeddings.length = texts.length ∧
      resp.count = texts.length ∧
      resp.embeddings.map EmbeddingResult.text = texts.map truncateLabel ∧
      resp.embeddings.map EmbeddingResult.embedding = embs := by
  refine ⟨_, embedEndpoint_success_eq cap texts nrm e embs h1 h2 hcap, ?_, ?_, ?_, ?_⟩
  · simp [List.length_zip, hlen]
  · simp [List.length_zip, hlen]
  · exact map_text_zip texts embs hlen
  · exact map_embedding_zip texts embs hlen

/-- Witness for C1: a concrete two-text request against the zero capability
yields a success with count 2 and labels/vectors in input order. -/
theorem C1_batch_count_and_order_witness :
    ∃ resp, embedEndpoint (some zeroCap) ["a", "b"] true 0 = .success resp ∧
      resp.count = 2 ∧
      resp.embeddings.map EmbeddingResult.text = ["a", "b"] := by
  obtain ⟨resp, hresp, hlen, hcount, htext, hemb⟩ :=
    C1_batch_count_and_order zeroCap ["a", "b"] true 0
      [List.replicate 384 0, List.replicate 384 0]
      (by decide) (by decide) (by decide) rfl
  exact ⟨resp, hresp, hcount, htext⟩

/-- C4: in a successful embed response each label is the corresponding input
text truncated to its first 100 characters with an appended ellipsis marker
when the text exceeds 100 characters, and the unchanged text otherwise; the
vectors paired with the labels are exactly the capability output on the full
original (untruncated) texts. -/
theorem C4_label_truncation (cap : Capability) (texts : List String)
    (nrm : Bool) (e : ℚ) (embs : List (List ℚ))
    (h1 : 1 ≤ texts.length) (h2 : texts.length ≤ 100)
    (hlen : embs.length = texts.length)
    (hcap : cap texts nrm = Except.ok embs) :
    ∃ resp, embedEndpoint (some cap) texts nrm e = .success resp ∧
      resp.embeddings.map EmbeddingResult.text = texts.map (fun t =>
        if t.length > 100 then (t.toList.take 100).asString ++ "..." else t) ∧
      resp.embeddings.map EmbeddingResult.embedding = embs := by
  refine ⟨_, embedEndpoint_success_eq cap texts nrm e embs h1 h2 hcap, ?_, ?_⟩
  · rw [map_text_zip texts embs hlen]
    rfl
  · exact map_embedding_zip texts embs hlen

/-- Witness for C4: a 101-character text comes back as its first 100
characters plus the ellipsis marker, while a short text is unchanged. -/
theorem C4_label_truncation_witness :
    ∃ resp,
      embedEndpoint (some zeroCap) [(List.replicate 101 'a').asString, "hi"] true 0 =
        .success resp ∧
      resp.embeddings.map EmbeddingResult.text =
        [(List.replicate 100 'a').asString ++ "...", "hi"] := by
  obtain ⟨resp, hresp, htext, hemb⟩ :=
    C4_label_truncation zeroCap [(List.replicate 101 'a').asString, "hi"] true 0
      [List.replicate 384 0, List.replicate 384 0]
      (by decide) (by decide) (by decide) rfl
  refine ⟨resp, hresp, ?_⟩
  rw [htext]
  decide

/-- C9: the optional `tokens` field of every `EmbeddingResult` in a
successful embed response is absent (`none`), regardless of input. -/
theorem C9_tokens_always_absent (cap : Capability) (texts : List String)
    (nrm : Bool) (e : ℚ) :
    ∀ resp, embedEndpoint (some cap) texts nrm e = .success resp →
      ∀ r ∈ resp.embeddings, r.tokens = none := by
  intro resp h r hr
  simp only [embedEndpoint, generate_embeddings] at h
  split at h
  · split at h
    · exact (EmbedOutcome.noConfusion h)
    · split at h
      · exact (EmbedOutcome.noConfusion h)
      · split at h
        · exact (EmbedOutcome.noConfusion h)
        · cases h
          simp only [List.mem_map] at hr
          obtain ⟨p, hp, hpr⟩ := hr
          rw [← hpr]
  · exact (EmbedOutcome.noConfusion h)

/-- Witness for C9 at a concrete request against the zero capability. -/
theorem C9_tokens_always_absent_witness :
    ∃ resp, embedEndpoint (some zeroCap) ["a"] true 0 = EmbedOutcome.success resp ∧
      ∀ r ∈ resp.embeddings, r.tokens = none := by
  refine ⟨_, rfl, ?_⟩
  exact C9_tokens_always_absent zeroCap ["a"] true 0 _ rfl

/-- C3: the similarity utility classifies the computed score with strict
greater-than thresholds in order: score > 0.8 yields "Very similar", else
score > 0.6 yields "Similar", else score > 0.4 yields "Somewhat similar",
else "Not very similar"; a score exactly at a boundary falls into the lower
bucket, and the `interpretation` field of a successful similarity response is
this classification of the (unrounded) dot-product score. -/
theorem C3_interpretation_buckets (s : ℚ) :
    (s > 8/10 → EmbeddingService.interpretScore s = "Very similar") ∧
    (s ≤ 8/10 → s > 6/10 → EmbeddingService.interpretScore s = "Similar") ∧
    (s ≤ 6/10 → s > 4/10 → EmbeddingService.interpretScore s = "Somewhat similar") ∧
    (s ≤ 4/10 → EmbeddingService.interpretScore s = "Not very similar") ∧
    (EmbeddingService.interpretScore (8/10) = "Similar") ∧
    (EmbeddingService.interpretScore (6/10) = "Somewhat similar") ∧
    (EmbeddingService.interpretScore (4/10) = "Not very similar") ∧
    (∀ cap : EmbeddingService.Capability, ∀ t1 t2 : String, ∀ v0 v1 : List ℚ,
      ∀ rest : List (List ℚ),
      cap [t1, t2] true = .ok (v0 :: v1 :: rest) →
      ∀ p, EmbeddingService.compute_similarity (some cap) t1 t2 = .success p →
        p.interpretation = EmbeddingService.interpretScore
          (EmbeddingService.dotProduct v0 v1)) := by
  unfold EmbeddingService.interpretScore
  refine ⟨fun h => by rw [if_pos h], ?_, ?_, ?_, by norm_num, by norm_num, by norm_num, ?_⟩
  · intro h1 h2
    rw [if_neg (by linarith), if_pos h2]
  · intro h1 h2
    rw [if_neg (by linarith), if_neg (by linarith), if_pos h2]
  · intro h1
    rw [if_neg (by linarith), if_neg (by linarith), if_neg (by linarith)]
  · intro cap t1 t2 v0 v1 rest hcap p hp
    unfold EmbeddingService.compute_similarity at hp
    simp only [hcap, EmbeddingService.interpretScore] at hp
    cases hp
    rfl

/-- Witness for C3 at concrete scores and a concrete capability. -/
theorem C3_interpretation_buckets_witness :
    EmbeddingService.interpretScore (9/10) = "Very similar" ∧
    EmbeddingService.interpretScore (8/10) = "Similar" := by
  refine ⟨(C3_interpretation_buckets (9/10)).1 (by norm_num), ?_⟩
  exact (C3_interpretation_buckets 0).2.2.2.2.1

/-- C5: when the capability call raises, the endpoint returns a structured
500 error whose detail string is the fixed prefix followed by the underlying
failure description, and no success payload (hence no partial batch) is
produced. -/
theorem C5_capability_failure_is_500 (cap : Capability) (texts : List String)
    (nrm : Bool) (e : ℚ) (msg : String)
    (h1 : 1 ≤ texts.length) (h2 : texts.length ≤ 100)
    (hcap : cap texts nrm = Except.error msg) :
    embedEndpoint (some cap) texts nrm e =
      .error 500 ("Embedding generation failed: " ++ msg) ∧
    (embedEndpoint (some cap) texts nrm e).status = 500 ∧
    ∀ resp, embedEndpoint (some cap) texts nrm e ≠ .success resp := by
  have hv : validTextsLength texts = true := by
    unfold validTextsLength
    simp only [Bool.and_eq_true, decide_eq_true_eq]
    omega
  have heq : embedEndpoint (some cap) texts nrm e =
      .error 500 ("Embedding generation failed: " ++ msg) := by
    unfold embedEndpoint generate_embeddings
    rw [if_pos hv]
    simp only [hcap]
    rw [if_neg (by omega), if_neg (by omega)]
  refine ⟨heq, by rw [heq]; rfl, ?_⟩
  intro resp hsucc
  rw [heq] at hsucc
  exact EmbedOutcome.noConfusion hsucc

/-- Witness for C5: the always-failing capability on a one-text request. -/
theorem C5_capability_failure_is_500_witness :
    embedEndpoint (some failCap) ["a"] true 0 =
      EmbedOutcome.error 500 ("Embedding generation failed: " ++ "boom") :=
  (C5_capability_failure_is_500 failCap ["a"] true 0 "boom"
    (by decide) (by decide) rfl).1

/-- C6: with no capability loaded, the health endpoint reports
`model_loaded = false` (status string "unhealthy"), and any length-valid
embed request is answered with a 503 error; no capability exists to be
invoked. -/
theorem C6_unloaded_503 (texts : List String) (nrm : Bool) (e : ℚ)
    (h1 : 1 ≤ texts.length) (h2 : texts.length ≤ 100) :
    (health_check none).model_loaded = false ∧
    (health_check none).status = "unhealthy" ∧
    embedEndpoint none texts nrm e = .error 503 "Model not loaded" ∧
    (embedEndpoint none texts nrm e).status = 503 := by
  have hv : validTextsLength texts = true := by
    unfold validTextsLength
    simp only [Bool.and_eq_true, decide_eq_true_eq]
    omega
  have heq : embedEndpoint none texts nrm e = .error 503 "Model not loaded" := by
    unfold embedEndpoint generate_embeddings
    rw [if_pos hv]
  exact ⟨rfl, rfl, heq, by rw [heq]; rfl⟩

/-- Witness for C6 at a concrete one-text request. -/
theorem C6_unloaded_503_witness :
    (health_check none).model_loaded = false ∧
    embedEndpoint none ["a"] true 0 = EmbedOutcome.error 503 "Model not loaded" := by
  obtain ⟨hml, hs, heq, hst⟩ := C6_unloaded_503 ["a"] true 0 (by decide) (by decide)
  exact ⟨hml, heq⟩

/-- C2 counterexample: a request with 0 texts (and likewise one with 101
texts) is rejected by the framework validation of the pydantic constraints
`min_items=1, max_items=100` with status 422, not 400 as the claim states;
the handler's own 400 branches are unreachable. -/
theorem C2_counterexample_status_422 :
    (embedEndpoint (some zeroCap) [] true 0).status = 422 ∧
    (embedEndpoint (some zeroCap) (List.replicate 101 "x") true 0).status = 422 ∧
    (422 : ℕ) ≠ 400 := by
  refine ⟨rfl, ?_, by decide⟩
  rfl

/-- On a length-valid request with a loaded capability the handler answers
with status 200 or 500: the 400, 422 and 503 statuses cannot arise. -/
theorem generate_embeddings_status_ok_or_500 (cap : Capability)
    (req : EmbedRequest) (e : ℚ)
    (h1 : 1 ≤ req.texts.length) (h2 : req.texts.length ≤ 100) :
    (generate_embeddings (some cap) req e).status = 200 ∨
    (generate_embeddings (some cap) req e).status = 500 := by
  unfold generate_embeddings
  cases hc : cap req.texts req.normalize with
  | error msg =>
    simp only [hc]
    rw [if_neg (by omega), if_neg (by omega)]
    right
    rfl
  | ok embs =>
    simp only [hc]
    rw [if_neg (by omega), if_neg (by omega)]
    left
    rfl

/-- C2 (amended): a request with 0 or 101 texts is rejected with status 422
by request validation before the handler runs, and the rejection is
independent of the loaded capability (the capability is never invoked); a
request with exactly 100 texts passes validation, is handed to the handler,
and is never answered with 400 or 422. -/
theorem C2_amended_validation_bounds (cap : Capability) (texts : List String)
    (nrm : Bool) (e : ℚ) :
    (texts.length = 0 → (embedEndpoint (some cap) texts nrm e).status = 422) ∧
    (texts.length = 101 → (embedEndpoint (some cap) texts nrm e).status = 422) ∧
    (validTextsLength texts = false → ∀ cap2 : Capability,
      embedEndpoint (some cap) texts nrm e = embedEndpoint (some cap2) texts nrm e) ∧
    (texts.length = 100 →
      embedEndpoint (some cap) texts nrm e =
        generate_embeddings (some cap) { texts := texts, normalize := nrm } e ∧
      (embedEndpoint (some cap) texts nrm e).status ≠ 400 ∧
      (embedEndpoint (some cap) texts nrm e).status ≠ 422) := by
  refine ⟨?_, ?_, ?_, ?_⟩
  · intro h0
    have hv : validTextsLength texts = false := by
      unfold validTextsLength
      simp only [Bool.and_eq_false_iff, decide_eq_false_iff_not]
      omega
    unfold embedEndpoint
    rw [hv]
    rfl
  · intro h101
    have hv : validTextsLength texts = false := by
      unfold validTextsLength
      simp only [Bool.and_eq_false_iff, decide_eq_false_iff_not]
      omega
    unfold embedEndpoint
    rw [hv]
    rfl
  · intro hv cap2
    unfold embedEndpoint
    rw [hv]
    rfl
  · intro h100
    have hv : validTextsLength texts = true := by
      unfold validTextsLength
      simp only [Bool.and_eq_true, decide_eq_true_eq]
      omega
    have hhandler : embedEndpoint (some cap) texts nrm e =
        generate_embeddings (some cap) { texts := texts, normalize := nrm } e := by
      unfold embedEndpoint
      rw [if_pos hv]
    refine ⟨hhandler, ?_, ?_⟩
    all_goals
      rw [hhandler]
      rcases generate_embeddings_status_ok_or_500 cap
        { texts := texts, normalize := nrm } e
        (show 1 ≤ texts.length by omega) (show texts.length ≤ 100 by omega)
        with h | h
      all_goals rw [h]
      all_goals decide

/-- Witness for C2 (amended): the empty request is a 422, and a 100-text
request reaches the handler. -/
theorem C2_amended_validation_bounds_witness :
    (embedEndpoint (some zeroCap) [] true 0).status = 422 ∧
    embedEndpoint (some zeroCap) (List.replicate 100 "a") true 0 =
      generate_embeddings (some zeroCap)
        { texts := List.replicate 100 "a", normalize := true } 0 := by
  refine ⟨(C2_amended_validation_bounds zeroCap [] true 0).1 rfl, ?_⟩
  exact ((C2_amended_validation_bounds zeroCap (List.replicate 100 "a") true 0).2.2.2
    (by decide)).1

/-- C10: the similarity endpoint echoes `text1` and `text2` through the same
label truncation as the embed endpoint: the first 100 characters plus an
ellipsis marker when the input exceeds 100 characters, the input unchanged
otherwise. -/
theorem C10_similarity_echo_truncation (cap : Capability) (t1 t2 : String)
    (v0 v1 : List ℚ) (rest : List (List ℚ))
    (hcap : cap [t1, t2] true = Except.ok (v0 :: v1 :: rest)) :
    ∃ p, compute_similarity (some cap) t1 t2 = .success p ∧
      p.text1 = truncateLabel t1 ∧
      p.text2 = truncateLabel t2 ∧
      p.text1 = (if t1.length > 100 then (t1.toList.take 100).asString ++ "..."
        else t1) ∧
      p.text2 = (if t2.length > 100 then (t2.toList.take 100).asString ++ "..."
        else t2) := by
  have heq : compute_similarity (some cap) t1 t2 = .success
      { text1 := truncateLabel t1
        text2 := truncateLabel t2
        similarity := pyRound (dotProduct v0 v1) 4
        interpretation := interpretScore (dotProduct v0 v1) } := by
    unfold compute_similarity
    simp only [hcap]
  exact ⟨_, heq, rfl, rfl, rfl, rfl⟩

/-- Witness for C10: a 101-character first text is echoed truncated with the
ellipsis marker while a short second text is echoed unchanged. -/
theorem C10_similarity_echo_truncation_witness :
    ∃ p, compute_similarity (some zeroCap) (List.replicate 101 'b').asString "hi" =
        SimilarityOutcome.success p ∧
      p.text1 = (List.replicate 100 'b').asString ++ "..." ∧
      p.text2 = "hi" := by
  obtain ⟨p, hp, ht1, ht2, he1, he2⟩ :=
    C10_similarity_echo_truncation zeroCap (List.replicate 101 'b').asString "hi"
      (List.replicate 384 0) (List.replicate 384 0) [] rfl
  refine ⟨p, hp, ?_, ?_⟩
  · rw [he1]
    decide
  · rw [he2]
    decide

/-- C8 counterexample: the model-info endpoint is not independent of service
state: with the capability reference unset it answers with a 503 error, not
the constant payload it returns when the capability is loaded. -/
theorem C8_counterexample_model_info_state_dependent :
    get_model_info none = .error 503 "Model not loaded" ∧
    get_model_info none ≠ get_model_info (some zeroCap) := by
  constructor
  · rfl
  · decide

/-- C8 (amended): whenever the capability is loaded, `GET /api/v1/model-info`
returns the constant descriptive document, identical for every loaded
capability (no business logic); with no capability loaded it returns a 503
error instead. -/
theorem C8_amended_model_info_constant_when_loaded (cap : Capability) :
    get_model_info (some cap) = .payload modelInfoDoc ∧
    (∀ cap2 : Capability, get_model_info (some cap) = get_model_info (some cap2)) ∧
    get_model_info none = .error 503 "Model not loaded" :=
  ⟨rfl, fun _ => rfl, rfl⟩

/-- C7 counterexample: the operations timed between the two clock samples
are the capability call AND the per-result list construction, so the window
is not "around the capability call only": result construction is response
shaping and it is inside the window. -/
theorem C7_counterexample_timed_window :
    timedSteps = [EmbedStep.encodeCall, EmbedStep.buildResults] ∧
    EmbedStep.buildResults ∈ timedSteps ∧
    timedSteps ≠ [EmbedStep.encodeCall] := by
  decide

/-- C7 (amended): the timing window starts after validation and ends after
the per-result list is built, so it covers the capability call plus result
construction and excludes the model check, the length validation and the
final response assembly; on success the reported value is the elapsed
duration converted to milliseconds and rounded to 2 decimal places. -/
theorem C7_amended_timing_window (cap : Capability) (texts : List String)
    (nrm : Bool) (e : ℚ) :
    timedSteps = [EmbedStep.encodeCall, EmbedStep.buildResults] ∧
    EmbedStep.checkModel ∉ timedSteps ∧
    EmbedStep.validateCount ∉ timedSteps ∧
    EmbedStep.buildResponse ∉ timedSteps ∧
    ∀ resp, embedEndpoint (some cap) texts nrm e = .success resp →
      resp.processing_time_ms = pyRound (e * 1000) 2 := by
  refine ⟨by decide, by decide, by decide, by decide, ?_⟩
  intro resp h
  simp only [embedEndpoint, generate_embeddings] at h
  split at h
  · split at h
    · exact EmbedOutcome.noConfusion h
    · split at h
      · exact EmbedOutcome.noConfusion h
      · split at h
        · exact EmbedOutcome.noConfusion h
        · cases h
          rfl
  · exact EmbedOutcome.noConfusion h

/-- Witness for C7 (amended): a concrete request with a 1-second elapsed
duration reports 1000 milliseconds. -/
theorem C7_amended_timing_window_witness :
    ∃ resp, embedEndpoint (some zeroCap) ["a"] true 1 = EmbedOutcome.success resp ∧
      resp.processing_time_ms = pyRound (1 * 1000) 2 := by
  refine ⟨_, rfl, ?_⟩
  exact (C7_amended_timing_window zeroCap ["a"] true 1).2.2.2.2 _ rfl
